import Mathlib

/-
Verification development for the PyHardwareLibrary core:
the transport protocol layer (CommunicationPort and its simulated test
double), the process-wide notification center, and the physical-device
lifecycle state machine. Each Python function handled here is embedded
as an executable Lean definition that follows the source control flow;
stateful methods become explicit state passing, raised exceptions become
explicit error values, and notification posting becomes an event trace.
-/

set_option autoImplicit false

namespace HardwareLib

/- ## Transport transactions: CommunicationPort.writeStringExpectMatchingString

Source: CommunicationPort.py, lines 105-117.

    def writeStringExpectMatchingString(self, string, replyPattern, alternatePattern = None):
        with self.transactionLock:
            self.writeString(string)
            reply = self.readString()
            match = re.search(replyPattern, reply)
            if match is None:
                if alternatePattern is not None:
                    match = re.search(alternatePattern, reply)
                    if match is None:
                        raise CommunicationReadAlternateMatch(reply)
                raise CommunicationReadNoMatch(...)
        return reply

The write and the read of the reply line are I/O against the serial port;
the embedding takes the reply line that was read as a parameter, and takes
the regular-expression engine as a parameter as well: `reSearch pat s`
is true exactly when Python `re.search(pat, s)` returns a match object.
The value of the function is the outcome of the transaction: the reply on
success, or which exception was raised. Note the control flow of the
source: when `replyPattern` fails and `alternatePattern` is present,
the exception `CommunicationReadAlternateMatch` is raised when the
alternate does NOT match, and falling out of the inner `if` (the case
where the alternate DID match) reaches the unconditional
`raise CommunicationReadNoMatch`. -/

/-- Outcome of one write-then-read transaction: either the reply line, or
the exception the source raises. -/
inductive TransactOutcome where
  | reply (r : String)
  | readNoMatch
  | readAlternateMatch
  deriving DecidableEq

/-- Embedding of CommunicationPort.writeStringExpectMatchingString
(CommunicationPort.py lines 105-117), parameterized by the regex engine
`reSearch` and by the reply line read from the port. -/
def writeStringExpectMatchingString (reSearch : String → String → Bool)
    (reply : String) (replyPattern : String) (alternatePattern : Option String) :
    TransactOutcome :=
  if reSearch replyPattern reply then
    TransactOutcome.reply reply
  else
    match alternatePattern with
    | some alt =>
      if reSearch alt reply then
        -- the inner `raise CommunicationReadAlternateMatch` is skipped and
        -- control falls through to `raise CommunicationReadNoMatch`
        TransactOutcome.readNoMatch
      else
        TransactOutcome.readAlternateMatch
    | none => TransactOutcome.readNoMatch

/- ## Notification center

Source: notificationcenter.py. A notification name is a member of an
enum subclass of Notification.Name; its `.name` attribute is the member
name string. The observers table is a dict; its keys are the strings
`notificationName.name`, but addObserver tests membership of the enum
member itself (line 57), and removeObserver/postNotification test the
string. A Python dict key can therefore be (in this program) a string,
an enum member, or None; equality across these kinds is always false. -/

/-- A member of an enum subclass of Notification.Name; `name` is the
member name string (what Python exposes as `member.name`). -/
structure NotificationName where
  name : String
  deriving DecidableEq

/-- A Python value usable as a key of the observers dict: a string, an
enum member, or None. Values of different kinds are never equal, which is
exactly Python equality between a string, an enum member and None. -/
inductive DictKey where
  | str (s : String)
  | enumMember (n : NotificationName)
  | pynone
  deriving DecidableEq

/-- Embedding of ObserverInfo (notificationcenter.py lines 21-38):
observer identity and callback are opaque identifiers. -/
structure ObserverInfo where
  observer : Nat
  method : Nat
  notificationName : Option NotificationName
  observedObject : Option Nat
  deriving DecidableEq

/-- Embedding of ObserverInfo.matches (notificationcenter.py lines 28-35). -/
def ObserverInfo.matchesInfo (self other : ObserverInfo) : Bool :=
  if self.notificationName.isSome && other.notificationName.isSome &&
      self.notificationName != other.notificationName then
    false
  else if self.observedObject.isSome && other.observedObject.isSome &&
      self.observedObject != other.observedObject then
    false
  else if self.observer != other.observer then
    false
  else
    true

/-- The observers dict, as an insertion-ordered association list from
keys to lists of registrations. -/
abbrev ObserversDict : Type := List (DictKey × List ObserverInfo)

/-- Python `k in d.keys()`. -/
def dictContains (d : ObserversDict) (k : DictKey) : Bool :=
  d.any fun p => decide (p.1 = k)

/-- Python `d[k]` for a key known to be present (defaults to the empty
list when absent; every use below is guarded by dictContains). -/
def dictGet (d : ObserversDict) (k : DictKey) : List ObserverInfo :=
  match d.find? (fun p => decide (p.1 = k)) with
  | some p => p.2
  | none => []

/-- Python `d[k] = v`: replaces the value at `k` when present, appends a
new entry when absent (dict insertion order). -/
def dictSet (d : ObserversDict) (k : DictKey) (v : List ObserverInfo) : ObserversDict :=
  if dictContains d k then
    d.map fun p => if p.1 = k then (k, v) else p
  else
    d ++ [(k, v)]

/-- The dict key that the Python value `notificationName` denotes when it
is tested for membership in the observers dict. -/
def keyOfOptName : Option NotificationName → DictKey
  | none => DictKey.pynone
  | some n => DictKey.enumMember n

/-- AttributeError is what `None.name` raises. -/
inductive PyError where
  | attributeError
  deriving DecidableEq

/-- Embedding of NotificationCenter.addObserver (notificationcenter.py
lines 51-61). The ValueError type check on line 52 is enforced by the
types. Line 57 tests `notificationName not in self.observers.keys()`:
the keys stored in the dict are member-name strings while
`notificationName` is an enum member or None, so this comparison is
between values of different kinds. Both branches then evaluate
`notificationName.name`, which raises AttributeError when
`notificationName` is None. Membership of `observerInfo` in the stored
list (line 60) uses ObserverInfo equality, which is `matches`. -/
def addObserver (observers : ObserversDict) (observer method : Nat)
    (notificationName : Option NotificationName) (observedObject : Option Nat) :
    Except PyError ObserversDict :=
  let observerInfo : ObserverInfo :=
    ⟨observer, method, notificationName, observedObject⟩
  if ¬ dictContains observers (keyOfOptName notificationName) then
    match notificationName with
    | none => Except.error PyError.attributeError
    | some n => Except.ok (dictSet observers (DictKey.str n.name) [observerInfo])
  else
    match notificationName with
    | none => Except.error PyError.attributeError
    | some n =>
      let lst := dictGet observers (DictKey.str n.name)
      if lst.any (fun cur => cur.matchesInfo observerInfo) then
        Except.ok observers
      else
        Except.ok (dictSet observers (DictKey.str n.name) (lst ++ [observerInfo]))

/-- Embedding of NotificationCenter.postNotification (notificationcenter.py
lines 75-83). Returns the dispatch trace: the registrations whose callback
is invoked, in stored order; each listed registration receives one call
with the Notification built on line 80. -/
def postNotification (observers : ObserversDict)
    (notificationName : NotificationName) (notifyingObject : Nat) :
    List ObserverInfo :=
  if dictContains observers (DictKey.str notificationName.name) then
    (dictGet observers (DictKey.str notificationName.name)).filter
      (fun oi => decide (oi.observedObject = none ∨ oi.observedObject = some notifyingObject))
  else
    []

/- ## Simulated transport: DebugCommunicationPort

Source: CommunicationPort.py lines 171-256. Bytes are modeled as natural
numbers (Python bytearray elements are 0..255; nothing here bounds them
since the hex expansion below handles any Nat). -/

/-- Error raised by a failed read. -/
inductive PortErr where
  | readTimeout
  deriving DecidableEq

/-- The sixteen lowercase hexadecimal digit characters, in order. -/
def hexChars : List Char :=
  "0123456789abcdef".toList

/-- Python `"%02x" % b`: the two hex digits of one byte. -/
def hexOfByte (b : Nat) : List Char :=
  [hexChars.getD (b / 16) '0', hexChars.getD (b % 16) '0']

/-- Python `bytearray.hex()`: the hex expansion of a byte sequence. -/
def bytesToHex (data : List Nat) : List Char :=
  (data.map hexOfByte).flatten

/-- Python `re.search("(.+)", s) is not None`: the pattern `(.+)` finds a
match exactly when `s` has at least one character other than a newline
(the dot metacharacter does not match a newline). -/
def reSearchAnyPlus (s : List Char) : Bool :=
  s.any fun c => decide (c ≠ '\n')

/-- Embedding of CommandData.match for the command registered by
EchoDataDebugCommunicationPort (hexPattern `"(.+)"`, CommunicationPort.py
lines 162-169 and 250): the payload hex is searched with `(.+)`; on a hex
string (which never holds a newline) the single group captures the whole
string, and `bytearray.fromhex` of it restores the payload, so the group
list is `[inputData]`. -/
def commandDataMatchAnyPlus (inputData : List Nat) : Option (List (List Nat)) :=
  if reSearchAnyPlus (bytesToHex inputData) then some [inputData] else none

/-- One registered command matcher of a DebugCommunicationPort: its
match method together with the reply that the owning port subclass
produces in processCommand for this command. -/
structure SimCommand where
  name : String
  matchFn : List Nat → Option (List (List Nat))
  processFn : List (List Nat) → List Nat → List Nat

/-- The echoData command of EchoDataDebugCommunicationPort
(CommunicationPort.py lines 247-254): processCommand returns the input
payload unchanged. -/
def echoDataCommand : SimCommand where
  name := "echoData"
  matchFn := commandDataMatchAnyPlus
  processFn := fun _groups inputData => inputData

/-- State of a DebugCommunicationPort: internal output buffer (what the
simulated device has sent back) and the registered command list. -/
structure DebugPortState where
  outputBuffer : List Nat
  commands : List SimCommand

/-- A fresh EchoDataDebugCommunicationPort: empty buffer, one echo
command registered (CommunicationPort.py lines 248-250). -/
def echoDataPort : DebugPortState :=
  ⟨[], [echoDataCommand]⟩

/-- The loop of DebugCommunicationPort.writeData (CommunicationPort.py
lines 222-231): scan the commands in order; the first whose match method
succeeds produces the reply through processCommand, and the scan breaks;
with no match the reply stays the empty bytearray. -/
def firstReply : List SimCommand → List Nat → List Nat
  | [], _ => []
  | c :: rest, data =>
    match c.matchFn data with
    | some groups => c.processFn groups data
    | none => firstReply rest data

/-- Embedding of DebugCommunicationPort.writeData (CommunicationPort.py
lines 220-234): extends the output buffer with the reply and returns
`len(replyData)` together with the new state. -/
def writeData (st : DebugPortState) (data : List Nat) : Nat × DebugPortState :=
  let replyData := firstReply st.commands data
  (replyData.length, ⟨st.outputBuffer ++ replyData, st.commands⟩)

/-- The loop of DebugCommunicationPort.readData (CommunicationPort.py
lines 206-212): `length` times, pop the front byte of the buffer into
`data`; when the buffer is empty, CommunicationReadTimeout is raised with
the buffer in its already-drained state. Returns the read outcome and the
final buffer. -/
def readDataLoop : Nat → List Nat → List Nat → Except PortErr (List Nat) × List Nat
  | 0, acc, buf => (Except.ok acc, buf)
  | _ + 1, _, [] => (Except.error PortErr.readTimeout, [])
  | n + 1, acc, b :: rest => readDataLoop n (acc ++ [b]) rest

/-- Embedding of DebugCommunicationPort.readData (CommunicationPort.py
lines 203-217) for a given length (the `length is None` branch, lines
213-215, is not exercised by the properties here). -/
def readData (st : DebugPortState) (length : Nat) :
    Except PortErr (List Nat) × DebugPortState :=
  let r := readDataLoop length [] st.outputBuffer
  (r.1, ⟨r.2, st.commands⟩)

/- ## Device lifecycle: PhysicalDevice

Source: physicaldevice.py. The device-specific hooks doInitializeDevice
and doShutdownDevice are external collaborators; the embedding takes the
hook outcome as a parameter (`Except Nat Unit`, the Nat an opaque
identifier of the exception the hook raised). Posting a notification is
recorded in an event trace; the monitoring-thread branch of
shutdownDevice (line 104-105) concerns a background thread and is outside
this embedding (the claims treat a device that is not polling). -/

/-- Embedding of DeviceState (physicaldevice.py lines 7-11). -/
inductive DeviceState where
  | Unconfigured
  | Ready
  | Recognized
  | Unrecognized
  deriving DecidableEq

/-- Lifecycle notifications posted through the NotificationCenter, with
the userInfo payload they carry (physicaldevice.py lines 13-18; the error
payload is the opaque identifier of the hook exception). -/
inductive DeviceEvent where
  | willInitializeDevice
  | didInitializeDevice (userInfo : Option Nat)
  | willShutdownDevice
  | didShutdownDevice (userInfo : Option Nat)
  deriving DecidableEq

/-- The exceptions PhysicalDevice raises, wrapping the hook exception
(physicaldevice.py lines 21-24, 91, 111). -/
inductive DeviceException where
  | unableToInitialize (cause : Nat)
  | unableToShutdown (cause : Nat)
  deriving DecidableEq

/-- Result of one lifecycle call: final state, the posted notifications
in order, and the exception propagated to the caller, when any. -/
structure LifecycleResult where
  state : DeviceState
  posted : List DeviceEvent
  raised : Option DeviceException
  deriving DecidableEq

/-- Embedding of PhysicalDevice.initializeDevice (physicaldevice.py lines
81-91): guarded by `state != Ready`; posts willInitializeDevice, runs the
hook; on success sets Ready and posts didInitializeDevice; on an exception
sets Unrecognized, posts didInitializeDevice with the error as userInfo
and raises UnableToInitialize wrapping it. -/
def initializeDevice (state : DeviceState) (doInitHook : Except Nat Unit) :
    LifecycleResult :=
  if state ≠ DeviceState.Ready then
    match doInitHook with
    | Except.ok _ =>
      ⟨DeviceState.Ready,
        [DeviceEvent.willInitializeDevice, DeviceEvent.didInitializeDevice none],
        none⟩
    | Except.error err =>
      ⟨DeviceState.Unrecognized,
        [DeviceEvent.willInitializeDevice, DeviceEvent.didInitializeDevice (some err)],
        some (DeviceException.unableToInitialize err)⟩
  else
    ⟨state, [], none⟩

/-- Embedding of PhysicalDevice.shutdownDevice (physicaldevice.py lines
100-113): guarded by `state == Ready`; posts willShutdownDevice, runs the
hook; posts didShutdownDevice (with the error as userInfo on failure); the
`finally` clause sets the state to Recognized before any exception
propagates; on failure raises UnableToShutdown wrapping the cause. -/
def shutdownDevice (state : DeviceState) (doShutdownHook : Except Nat Unit) :
    LifecycleResult :=
  if state = DeviceState.Ready then
    match doShutdownHook with
    | Except.ok _ =>
      ⟨DeviceState.Recognized,
        [DeviceEvent.willShutdownDevice, DeviceEvent.didShutdownDevice none],
        none⟩
    | Except.error err =>
      ⟨DeviceState.Recognized,
        [DeviceEvent.willShutdownDevice, DeviceEvent.didShutdownDevice (some err)],
        some (DeviceException.unableToShutdown err)⟩
  else
    ⟨state, [], none⟩

/- ## Helper lemmas -/

/-- No hexadecimal digit character is a newline. -/
lemma hexChars_getD_ne_newline (n : Nat) : hexChars.getD n '0' ≠ '\n' := by
  by_cases h : n < 16
  · exact (show ∀ k, k < 16 → hexChars.getD k '0' ≠ '\n' by decide) n h
  · rw [List.getD_eq_default]
    · decide
    · have h16 : hexChars.length = 16 := rfl
      omega

/-- The hex expansion of a nonempty byte sequence has a character other
than a newline, so `re.search("(.+)", data.hex())` succeeds. -/
lemma reSearchAnyPlus_bytesToHex_cons (b : Nat) (rest : List Nat) :
    reSearchAnyPlus (bytesToHex (b :: rest)) = true := by
  simp only [reSearchAnyPlus, bytesToHex, List.map_cons, List.flatten_cons,
    hexOfByte, List.any_eq_true]
  refine ⟨hexChars.getD (b / 16) '0', by simp, ?_⟩
  simpa using hexChars_getD_ne_newline (b / 16)

/-- On the echo-data port, the reply produced for any written payload is
the payload itself. -/
lemma firstReply_echoData (data : List Nat) :
    firstReply [echoDataCommand] data = data := by
  cases data with
  | nil => rfl
  | cons b rest =>
    simp [firstReply, echoDataCommand, commandDataMatchAnyPlus,
      reSearchAnyPlus_bytesToHex_cons]

/-- When at least `n` bytes are buffered, the read loop pops exactly the
first `n` of them and leaves the rest. -/
lemma readDataLoop_ok (n : Nat) : ∀ (acc buf : List Nat), n ≤ buf.length →
    readDataLoop n acc buf = (Except.ok (acc ++ buf.take n), buf.drop n) := by
  induction n with
  | zero => intro acc buf _; simp [readDataLoop]
  | succ n ih =>
    intro acc buf h
    cases buf with
    | nil => simp at h
    | cons b rest =>
      rw [readDataLoop, ih (acc ++ [b]) rest (by simpa using h)]
      simp

/-- When fewer than `n` bytes are buffered, the read loop fails with a
timeout and has already drained the whole buffer. -/
lemma readDataLoop_err (n : Nat) : ∀ (acc buf : List Nat), buf.length < n →
    readDataLoop n acc buf = (Except.error PortErr.readTimeout, []) := by
  induction n with
  | zero => intro acc buf h; simp at h
  | succ n ih =>
    intro acc buf h
    cases buf with
    | nil => rfl
    | cons b rest =>
      rw [readDataLoop, ih (acc ++ [b]) rest (by simpa using h)]

/-- A key absent from the dict looks up to the empty list. -/
lemma dictGet_eq_nil_of_not_contains (d : ObserversDict) (k : DictKey)
    (h : dictContains d k = false) : dictGet d k = [] := by
  unfold dictGet
  have hfind : d.find? (fun p => decide (p.1 = k)) = none := by
    rw [List.find?_eq_none]
    intro p hp
    obtain ⟨a, b⟩ := p
    simp only [dictContains, List.any_eq_false] at h
    simpa using h ⟨a, b⟩ hp
  rw [hfind]

/- ## Claim theorems -/

/-- C1: the claim states that when the reply misses successPattern, a
reply matching alternatePattern fails with AlternateMatch and a reply
matching neither fails with NoMatch. The source does the opposite: with
successPattern "OK" and alternatePattern "ERR" (plain text patterns, so
a regex search on the reply "ERR" succeeds exactly for the pattern equal
to it), the reply "ERR" — matching only the alternate — raises
CommunicationReadNoMatch, and the reply "XYZ" — matching neither —
raises CommunicationReadAlternateMatch. -/
theorem transact_alternate_swapped :
    writeStringExpectMatchingString (fun pat s => pat == s) "ERR" "OK" (some "ERR") =
      TransactOutcome.readNoMatch ∧
    writeStringExpectMatchingString (fun pat s => pat == s) "XYZ" "OK" (some "ERR") =
      TransactOutcome.readAlternateMatch := by
  exact ⟨rfl, rfl⟩

/-- C2: the claim states that subscribing two distinct observers to the
same notification name and then publishing that name invokes both
callbacks once. On the source, the key-membership test of addObserver
compares the enum member against the string keys of the observers dict
and never succeeds, so the second subscribe overwrites the stored list:
publishing invokes only the registration of observer 2, and the
registration of observer 1 is gone. -/
theorem addObserver_overwrite_drops_first_observer :
    (addObserver [] 1 1 (some ⟨"didMove"⟩) none).bind
      (fun d1 => (addObserver d1 2 2 (some ⟨"didMove"⟩) none).map
        (fun d2 => postNotification d2 ⟨"didMove"⟩ 0)) =
    Except.ok [⟨2, 2, some ⟨"didMove"⟩, none⟩] := by
  rfl

/-- C3 counterexample: on a fresh DebugCommunicationPort with no
registered command (the base class as constructed, commands = []),
writing the one-byte payload [1] returns 0, not len(data) = 1, so
writeData does not always return the length of the written payload. -/
theorem writeData_not_len_data_cex :
    (writeData ⟨[], []⟩ [1]).1 = 0 ∧ (writeData ⟨[], []⟩ [1]).1 ≠ ([1] : List Nat).length := by
  exact ⟨rfl, by decide⟩

/-- C3 amended: writeData returns the length of the reply produced by
the first matching command — 0 when no registered matcher matches — and
never raises; on the binary echo port the reply is the whole payload, so
there it returns len(data) for every byte sequence. -/
theorem writeData_returns_reply_length (buf data : List Nat) :
    (writeData ⟨buf, []⟩ data).1 = 0 ∧
    (writeData ⟨buf, [echoDataCommand]⟩ data).1 = data.length := by
  constructor
  · rfl
  · simp [writeData, firstReply_echoData]

/-- C4: writing any byte sequence `d` to the echo-data loopback port and
then reading `len(d)` bytes returns exactly `d` (and consumes the whole
buffer). -/
theorem echo_write_read_roundtrip (d : List Nat) :
    (readData (writeData echoDataPort d).2 d.length).1 = Except.ok d ∧
    (readData (writeData echoDataPort d).2 d.length).2.outputBuffer = [] := by
  have hbuf : (writeData echoDataPort d).2.outputBuffer = d := by
    simp [writeData, echoDataPort, firstReply_echoData]
  unfold readData
  rw [hbuf, readDataLoop_ok d.length [] d (le_refl _)]
  simp

/-- C8: readData fails with ReadTimeout whenever the buffer holds fewer
than `length` bytes, and whenever it returns successfully the returned
data is exactly `length` bytes long. -/
theorem readData_timeout_or_exact (st : DebugPortState) (n : Nat) :
    (st.outputBuffer.length < n →
      (readData st n).1 = Except.error PortErr.readTimeout) ∧
    (∀ d, (readData st n).1 = Except.ok d → d.length = n) := by
  constructor
  · intro h
    unfold readData
    rw [readDataLoop_err n [] st.outputBuffer h]
  · intro d hd
    unfold readData at hd
    by_cases h : n ≤ st.outputBuffer.length
    · rw [readDataLoop_ok n [] st.outputBuffer h] at hd
      simp only [List.nil_append, Except.ok.injEq] at hd
      rw [← hd, List.length_take]
      omega
    · rw [readDataLoop_err n [] st.outputBuffer (by omega)] at hd
      simp at hd

/-- C8 witness: reading 1 byte from an empty buffer times out, and a
successful read of 2 bytes from a 2-byte buffer returns 2 bytes. -/
theorem readData_timeout_or_exact_witness :
    (readData ⟨[], []⟩ 1).1 = Except.error PortErr.readTimeout ∧
    ([5, 6] : List Nat).length = 2 :=
  ⟨(readData_timeout_or_exact ⟨[], []⟩ 1).1 (by decide),
   (readData_timeout_or_exact ⟨[5, 6], []⟩ 2).2 [5, 6] rfl⟩

/-- C10: readData is not atomic on failure: on a buffer holding `k`
bytes with 0 < k < n, readData(n) raises ReadTimeout and leaves the
buffer empty — the bytes present before the call are consumed and
lost. -/
theorem readData_failure_drains_buffer (st : DebugPortState) (n : Nat)
    (hk : 0 < st.outputBuffer.length) (hn : st.outputBuffer.length < n) :
    (readData st n).1 = Except.error PortErr.readTimeout ∧
    (readData st n).2.outputBuffer = [] := by
  unfold readData
  rw [readDataLoop_err n [] st.outputBuffer hn]
  exact ⟨rfl, rfl⟩

/-- C10 witness: a buffer holding the single byte 5, read with n = 2,
times out and is left empty. -/
theorem readData_failure_drains_buffer_witness :
    (readData ⟨[5], []⟩ 2).1 = Except.error PortErr.readTimeout ∧
    (readData ⟨[5], []⟩ 2).2.outputBuffer = [] :=
  readData_failure_drains_buffer ⟨[5], []⟩ 2 (by decide) (by decide)

/-- C9: calling addObserver with the notification name omitted (None)
raises AttributeError (from evaluating `None.name`) for every observers
table, observer, callback and object filter, instead of registering a
wildcard observer. -/
theorem addObserver_none_attributeError (observers : ObserversDict)
    (observer method : Nat) (observedObject : Option Nat) :
    addObserver observers observer method none observedObject =
      Except.error PyError.attributeError := by
  unfold addObserver
  by_cases h : dictContains observers (keyOfOptName none) <;> simp [h]

/-- C7: a registration stored under the published name is invoked by
postNotification exactly when its object filter is absent or equal to
the notifying object; in particular a registration filtered to X is not
invoked when the notifying object is Y with Y distinct from X, and a
registration with no object filter is invoked whatever the notifying
object is. -/
theorem postNotification_objectFilter (observers : ObserversDict)
    (n : NotificationName) (y : Nat) (oi : ObserverInfo) :
    oi ∈ postNotification observers n y ↔
      oi ∈ dictGet observers (DictKey.str n.name) ∧
        (oi.observedObject = none ∨ oi.observedObject = some y) := by
  unfold postNotification
  by_cases h : dictContains observers (DictKey.str n.name)
  · simp [h, List.mem_filter]
  · rw [dictGet_eq_nil_of_not_contains observers (DictKey.str n.name) (by simpa using h)]
    simp [h]

/-- C5: initializeDevice from any state other than Ready ends Ready and
posts willInitializeDevice then didInitializeDevice when the hook
succeeds; when the hook fails it ends Unrecognized, posts
didInitializeDevice carrying the failure as payload and raises
UnableToInitialize wrapping the cause; from Ready it is a no-op. -/
theorem initializeDevice_transitions (s : DeviceState) (hook : Except Nat Unit) :
    (s ≠ DeviceState.Ready → hook = Except.ok () →
      initializeDevice s hook =
        ⟨DeviceState.Ready,
          [DeviceEvent.willInitializeDevice, DeviceEvent.didInitializeDevice none],
          none⟩) ∧
    (∀ e, s ≠ DeviceState.Ready → hook = Except.error e →
      initializeDevice s hook =
        ⟨DeviceState.Unrecognized,
          [DeviceEvent.willInitializeDevice, DeviceEvent.didInitializeDevice (some e)],
          some (DeviceException.unableToInitialize e)⟩) ∧
    initializeDevice DeviceState.Ready hook = ⟨DeviceState.Ready, [], none⟩ := by
  refine ⟨?_, ?_, ?_⟩
  · intro hs hok
    subst hok
    simp [initializeDevice, hs]
  · intro e hs he
    subst he
    simp [initializeDevice, hs]
  · simp [initializeDevice]

/-- C5 witness: from Unconfigured, a succeeding hook ends Ready with the
two notifications in order, and a hook failing with cause 7 ends
Unrecognized, posts the failure payload and raises the wrapped error. -/
theorem initializeDevice_transitions_witness :
    initializeDevice DeviceState.Unconfigured (Except.ok ()) =
      ⟨DeviceState.Ready,
        [DeviceEvent.willInitializeDevice, DeviceEvent.didInitializeDevice none],
        none⟩ ∧
    initializeDevice DeviceState.Unconfigured (Except.error 7) =
      ⟨DeviceState.Unrecognized,
        [DeviceEvent.willInitializeDevice, DeviceEvent.didInitializeDevice (some 7)],
        some (DeviceException.unableToInitialize 7)⟩ :=
  ⟨(initializeDevice_transitions DeviceState.Unconfigured (Except.ok ())).1
      (by decide) rfl,
   (initializeDevice_transitions DeviceState.Unconfigured (Except.error 7)).2.1 7
      (by decide) rfl⟩

/-- C6: shutdownDevice from Ready ends in Recognized whether the hook
succeeds or fails; on hook failure the raised UnableToShutdown coexists
with the completed transition to Recognized (the finally clause runs
before the exception propagates); from any state other than Ready it is
a no-op leaving the state unchanged. -/
theorem shutdownDevice_transitions (s : DeviceState) (hook : Except Nat Unit) :
    (shutdownDevice DeviceState.Ready hook).state = DeviceState.Recognized ∧
    (∀ e, hook = Except.error e →
      shutdownDevice DeviceState.Ready hook =
        ⟨DeviceState.Recognized,
          [DeviceEvent.willShutdownDevice, DeviceEvent.didShutdownDevice (some e)],
          some (DeviceException.unableToShutdown e)⟩) ∧
    (s ≠ DeviceState.Ready → shutdownDevice s hook = ⟨s, [], none⟩) := by
  refine ⟨?_, ?_, ?_⟩
  · cases hook <;> rfl
  · intro e he
    subst he
    rfl
  · intro hs
    simp [shutdownDevice, hs]

/-- C6 witness: from Ready a hook failing with cause 3 still ends
Recognized while raising the wrapped error, and from Recognized the call
is a no-op. -/
theorem shutdownDevice_transitions_witness :
    shutdownDevice DeviceState.Ready (Except.error 3) =
      ⟨DeviceState.Recognized,
        [DeviceEvent.willShutdownDevice, DeviceEvent.didShutdownDevice (some 3)],
        some (DeviceException.unableToShutdown 3)⟩ ∧
    shutdownDevice DeviceState.Recognized (Except.ok ()) =
      ⟨DeviceState.Recognized, [], none⟩ :=
  ⟨(shutdownDevice_transitions DeviceState.Ready (Except.error 3)).2.1 3 rfl,
   (shutdownDevice_transitions DeviceState.Recognized (Except.ok ())).2.2 (by decide)⟩

end HardwareLib
